import Mathlib

/-!
Shallow embedding of `src/plugins/xbl/src/xbl_manager.cpp` (Halley engine
Xbox Live plugin). The vendor SDK's asynchronous results (sign-in, token,
achievements pages, connected-storage acquisition, blob reads/writes) are
modelled as explicit oracle parameters; machine state (`XBLManager`,
`XBLSaveData`) is modelled as records passed explicitly. Busy-wait loops on
`GetTickCount64` are modelled by a boolean oracle saying whether the awaited
condition cleared before the timeout. `std::map` is modelled as an
association list with last-write-wins update.
-/

/-- Connection status of the manager (`XBLStatus` in the header). -/
inductive XBLStatus
  | Disconnected
  | Connecting
  | Connected
deriving DecidableEq, Repr

/-- Achievement-cache status flag (`XBLAchievementsStatus` in the header). -/
inductive XBLAchievementsStatus
  | Uninitialized
  | Retrieving
  | Ready
deriving DecidableEq, Repr

/-- Status of a connected-storage SDK operation
(`winrt::...::Storage::GameSaveErrorStatus`): `Ok`, or any non-Ok status
collapsed to its integer code. -/
inductive GameSaveErrorStatus
  | Ok
  | ErrorCode (code : Nat)
deriving DecidableEq, Repr

/-- Byte blobs stored in containers (Halley `Bytes`). -/
abbrev Bytes := List Nat

/-- Decidable equality of `Except` results. -/
def exceptDecEq {ε α : Type} [DecidableEq ε] [DecidableEq α] :
    (a b : Except ε α) → Decidable (a = b)
  | Except.error e, Except.error f =>
    if h : e = f then Decidable.isTrue (congrArg Except.error h)
    else Decidable.isFalse (fun hc => h (Except.error.inj hc))
  | Except.error _, Except.ok _ => Decidable.isFalse (fun hc => Except.noConfusion hc)
  | Except.ok _, Except.error _ => Decidable.isFalse (fun hc => Except.noConfusion hc)
  | Except.ok a, Except.ok b =>
    if h : a = b then Decidable.isTrue (congrArg Except.ok h)
    else Decidable.isFalse (fun hc => h (Except.ok.inj hc))

instance {ε α : Type} [DecidableEq ε] [DecidableEq α] :
    DecidableEq (Except ε α) :=
  exceptDecEq

/-- Lookup in an association list modelling `std::map::find`. -/
def mapGet {α : Type} : List (String × α) → String → Option α
  | [], _ => none
  | (k', v') :: rest, k => if k' = k then some v' else mapGet rest k

/-- Update in an association list modelling `std::map::operator[] =`
(replace the binding if the key is present, append otherwise). -/
def mapSet {α : Type} : List (String × α) → String → α → List (String × α)
  | [], k, v => [(k, v)]
  | (k', v') :: rest, k, v =>
    if k' = k then (k, v) :: rest else (k', v') :: mapSet rest k v

/-- Removal from an association list, modelling deletion of a blob key. -/
def mapRemove {α : Type} : List (String × α) → String → List (String × α)
  | [], _ => []
  | (k', v') :: rest, k => if k' = k then rest else (k', v') :: mapRemove rest k

/-- A container handle produced by `GameSaveProvider::CreateContainer`.
Providers are identified by a generation number so that a container
remembers which provider created it. -/
structure GameSaveContainer where
  providerId : Nat
  name : String
deriving DecidableEq, Repr

/-- Model of `provider.CreateContainer(name)`. -/
def createContainer (providerId : Nat) (name : String) : GameSaveContainer :=
  { providerId := providerId, name := name }

/-- State of one `XBLSaveData` object. `objId` models the identity of the
`shared_ptr` allocated by `std::make_shared` (allocation order), which the
C++ object distinguishes by address. -/
structure XBLSaveDataState where
  objId : Nat
  containerName : String
  isSaving : Bool
  gameSaveContainer : Option GameSaveContainer
deriving DecidableEq, Repr

/-- `XBLSaveData::updateContainer`: if the manager is Connected, lazily
create the container from the manager's provider (the code dereferences the
`Maybe` provider; `Option.getD 0` models that dereference); otherwise reset
the container handle. -/
def XBLSaveData.updateContainer (status : XBLStatus) (provider : Option Nat)
    (sd : XBLSaveDataState) : XBLSaveDataState :=
  if status = XBLStatus.Connected then
    match sd.gameSaveContainer with
    | none =>
      let c := createContainer (provider.getD 0) sd.containerName
      { sd with gameSaveContainer := some c }
    | some _ => sd
  else
    { sd with gameSaveContainer := none }

/-- `XBLSaveData::isReady`: run `updateContainer`, then report whether the
container handle is initialized. Returns the updated object state too,
since `updateContainer` mutates it. -/
def XBLSaveData.isReady (status : XBLStatus) (provider : Option Nat)
    (sd : XBLSaveDataState) : Bool × XBLSaveDataState :=
  let sd := XBLSaveData.updateContainer status provider sd
  (sd.gameSaveContainer.isSome, sd)

/-- `XBLSaveData::XBLSaveData`: the constructor normalizes an empty
container name to "save" and calls `updateContainer`. -/
def XBLSaveData.create (status : XBLStatus) (provider : Option Nat)
    (objId : Nat) (containerName : String) : XBLSaveDataState :=
  XBLSaveData.updateContainer status provider
    { objId := objId
      containerName := if containerName.isEmpty then "save" else containerName
      isSaving := false
      gameSaveContainer := none }

/-- `XBLSaveData::getData`. Oracles: `storeBeforeWrite` is the blob store
as seen if the busy-wait on `isSaving` times out while a write is still in
flight, `storeAfterWrite` the store once any in-flight write has landed
(they coincide when no write is pending); `getStatus` is the status of
`GetAsync`; `saveClearsInTime` says whether `isSaving` became false before
the 3000 ms timeout. Throws (returns `Except.error`) when not ready. -/
def XBLSaveData.getData (status : XBLStatus) (provider : Option Nat)
    (storeBeforeWrite storeAfterWrite : List (String × Bytes))
    (getStatus : GameSaveErrorStatus) (saveClearsInTime : Bool)
    (sd : XBLSaveDataState) (path : String) :
    Except String (Bytes × XBLSaveDataState) :=
  let r := XBLSaveData.isReady status provider sd
  if !r.1 then
    Except.error "Container is not ready yet!"
  else
    let store :=
      if r.2.isSaving && !saveClearsInTime then storeBeforeWrite
      else storeAfterWrite
    match getStatus with
    | GameSaveErrorStatus.Ok =>
      match mapGet store path with
      | some buffer => Except.ok (buffer, r.2)
      | none => Except.ok ([], r.2)
    | GameSaveErrorStatus.ErrorCode _ => Except.ok ([], r.2)

/-- `XBLSaveData::setData`. The oracle `submitStatus` is the result of
`SubmitUpdatesAsync`; the blob is stored under `path` exactly when it is
`Ok`. The returned state is the object state once the asynchronous lambda
has completed (it sets `isSaving := true` before dispatching and the lambda
resets it to false at the end). Throws when not ready. -/
def XBLSaveData.setData (status : XBLStatus) (provider : Option Nat)
    (store : List (String × Bytes)) (submitStatus : GameSaveErrorStatus)
    (sd : XBLSaveDataState) (path : String) (data : Bytes) (commit : Bool) :
    Except String (List (String × Bytes) × XBLSaveDataState) :=
  let r := XBLSaveData.isReady status provider sd
  if !r.1 then
    Except.error "Container is not ready yet!"
  else
    let newStore :=
      match submitStatus with
      | GameSaveErrorStatus.Ok => mapSet store path data
      | GameSaveErrorStatus.ErrorCode _ => store
    Except.ok (newStore, { r.2 with isSaving := false })

/-- `XBLSaveData::removeData`. The oracle `submitStatus` is the result of
`SubmitUpdatesAsync` with `path` in the deletion list; the blob is removed
exactly when it is `Ok`. Throws when not ready. -/
def XBLSaveData.removeData (status : XBLStatus) (provider : Option Nat)
    (store : List (String × Bytes)) (submitStatus : GameSaveErrorStatus)
    (sd : XBLSaveDataState) (path : String) :
    Except String (List (String × Bytes) × XBLSaveDataState) :=
  let r := XBLSaveData.isReady status provider sd
  if !r.1 then
    Except.error "Container is not ready yet!"
  else
    let newStore :=
      match submitStatus with
      | GameSaveErrorStatus.Ok => mapRemove store path
      | GameSaveErrorStatus.ErrorCode _ => store
    Except.ok (newStore, r.2)

/-- `XBLSaveData::enumerate`. The oracle gives the blob names returned by
the `CreateBlobInfoQuery(root)` query together with its status; on a
non-Ok status the result list is empty. Throws when not ready. -/
def XBLSaveData.enumerate (status : XBLStatus) (provider : Option Nat)
    (blobNames : List String) (queryStatus : GameSaveErrorStatus)
    (sd : XBLSaveDataState) (root : String) :
    Except String (List String × XBLSaveDataState) :=
  let r := XBLSaveData.isReady status provider sd
  if !r.1 then
    Except.error "Container is not ready yet!"
  else
    match queryStatus with
    | GameSaveErrorStatus.Ok => Except.ok (blobNames, r.2)
    | GameSaveErrorStatus.ErrorCode _ => Except.ok ([], r.2)

/-- `XBLSaveData::recreate`: unconditionally re-create the container from
the manager's current provider (dereferencing the `Maybe` provider). -/
def XBLSaveData.recreate (provider : Option Nat) (sd : XBLSaveDataState) :
    XBLSaveDataState :=
  let c := createContainer (provider.getD 0) sd.containerName
  { sd with gameSaveContainer := some c }

/-- State of the `XBLManager` object. `xboxUser` and `xboxLiveContext`
record whether the corresponding shared pointers are non-null; the
provider (`Maybe<GameSaveProvider>`) carries the provider's generation
number when set; `nextObjId` models the allocator producing fresh
`shared_ptr` identities for `std::make_shared`. -/
structure XBLManagerState where
  status : XBLStatus
  gameSaveProvider : Option Nat
  saveStorage : List (String × XBLSaveDataState)
  achievementsStatus : XBLAchievementsStatus
  achievementStatus : List (String × Bool)
  xboxUser : Bool
  xboxLiveContext : Bool
  nextObjId : Nat
deriving DecidableEq, Repr

/-- `XBLManager::getSaveContainer`: look the name up in `saveStorage`; on a
miss, construct a fresh `XBLSaveData` and store it under the name; on a
hit, return the stored object. Returns the object and the updated
manager. -/
def XBLManager.getSaveContainer (m : XBLManagerState) (name : String) :
    XBLSaveDataState × XBLManagerState :=
  match mapGet m.saveStorage name with
  | none =>
    let save := XBLSaveData.create m.status m.gameSaveProvider m.nextObjId name
    (save, { m with saveStorage := mapSet m.saveStorage name save
                    nextObjId := m.nextObjId + 1 })
  | some save => (save, m)

/-- `XBLManager::getConnectedStorage`: the oracle `result` is the outcome
of `GameSaveProvider::GetForUserAsync` (the new provider's generation
number on `Ok` status, `none` otherwise). On success the provider is
stored and the status becomes Connected, otherwise Disconnected. -/
def XBLManager.getConnectedStorage (result : Option Nat)
    (m : XBLManagerState) : XBLManagerState :=
  match result with
  | some pid =>
    { m with gameSaveProvider := some pid, status := XBLStatus.Connected }
  | none => { m with status := XBLStatus.Disconnected }

/-- `XBLManager::recreateCloudSaveContainer`: when Connected, reset the
provider, drop to Disconnected, re-run `getConnectedStorage` (its outcome
given by the oracle `newProvider`), then call `recreate` on every entry of
the save-container registry; otherwise do nothing. -/
def XBLManager.recreateCloudSaveContainer (newProvider : Option Nat)
    (m : XBLManagerState) : XBLManagerState :=
  if m.status = XBLStatus.Connected then
    let m1 := { m with gameSaveProvider := none
                       status := XBLStatus.Disconnected }
    let m2 := XBLManager.getConnectedStorage newProvider m1
    let recreated :=
      m2.saveStorage.map
        (fun p => (p.1, XBLSaveData.recreate m2.gameSaveProvider p.2))
    { m2 with saveStorage := recreated }
  else m

/-- Capability flags parsed from the token privileges (Halley
`OnlineCapabilities`, the two fields this code sets). -/
structure OnlineCapabilities where
  onlinePlay : Bool := false
  ugc : Bool := false
deriving DecidableEq, Repr

/-- Halley `String::split(char)` on the character list of a string:
splits at every occurrence of the separator, keeping empty pieces. -/
def splitOnChar (sep : Char) : List Char → List (List Char)
  | [] => [[]]
  | c :: rest =>
    let r := splitOnChar sep rest
    if c = sep then [] :: r
    else
      match r with
      | [] => [[c]]
      | piece :: pieces => (c :: piece) :: pieces

/-- C `atoi` digit-run accumulator: consume leading decimal digits,
stopping at the first non-digit. -/
def atoiDigits : List Char → Nat → Nat
  | c :: rest, acc =>
    if c.isDigit then atoiDigits rest (acc * 10 + (c.toNat - 48)) else acc
  | [], acc => acc

/-- Halley `String::toInteger` (C `atoi` semantics) on a character list:
an optional leading minus sign followed by a run of decimal digits; any
string with no leading digits parses to 0. -/
def toInteger : List Char → Int
  | '-' :: rest => -(atoiDigits rest 0 : Int)
  | s => (atoiDigits s 0 : Int)

/-- Payload of a successful `get_token_and_signature` SDK call
(`token_and_signature_result`). The privileges string is carried as its
character list. -/
structure TokenPayload where
  privileges : List Char
  gamertag : String
  xboxUserId : String
  token : String
deriving DecidableEq, Repr

/-- Oracle for the SDK outcome of `get_token_and_signature`. -/
inductive TokenSdkResult
  | err (message : String)
  | ok (payload : TokenPayload)
deriving DecidableEq, Repr

/-- Resolved value of the `Future<AuthTokenResult>` returned by
`getAuthToken`: either the Error retrieval result, or an
`XboxLiveAuthorisationToken` (its three data fields) with capabilities. -/
inductive AuthTokenResolved
  | error
  | token (gamertag userId token : String) (capabilities : OnlineCapabilities)
deriving DecidableEq, Repr

/-- Privilege parsing loop of `getAuthToken`: split the privileges string
on spaces, convert each piece to an integer (0 when not a number, as
Halley `String::toInteger`), and set `onlinePlay` for privilege 254
(XPRIVILEGE_MULTIPLAYER_SESSIONS) and `ugc` for privilege 247
(XPRIVILEGE_USER_CREATED_CONTENT). -/
def parsePrivileges (privileges : List Char) : OnlineCapabilities :=
  (splitOnChar ' ' privileges).foldl
    (fun capabilities priv =>
      let privNumber := toInteger priv
      if privNumber = 254 then { capabilities with onlinePlay := true }
      else if privNumber = 247 then { capabilities with ugc := true }
      else capabilities)
    {}

/-- Parameters of a token request (Halley `AuthTokenParameters`, the three
fields this code forwards to `get_token_and_signature`). -/
structure AuthTokenParameters where
  method : String
  url : String
  headers : String
deriving DecidableEq, Repr

/-- `XBLManager::getAuthToken`: when status is Connected, issue the vendor
token request with the given parameters (the first component of the result
records the issued request, `none` meaning no request was made) and
resolve the future from the SDK outcome; otherwise resolve the future to
Error immediately without issuing any request. -/
def XBLManager.getAuthToken (m : XBLManagerState)
    (parameters : AuthTokenParameters) (sdkResult : TokenSdkResult) :
    Option AuthTokenParameters × AuthTokenResolved :=
  if m.status = XBLStatus.Connected then
    (some parameters,
      match sdkResult with
      | TokenSdkResult.err _ => AuthTokenResolved.error
      | TokenSdkResult.ok payload =>
        AuthTokenResolved.token payload.gamertag payload.xboxUserId
          payload.token (parsePrivileges payload.privileges))
  else
    (none, AuthTokenResolved.error)

/-- Fuel-bounded search for the largest `e` with `den * 2 ^ e ≤ num`,
starting from an `e` already known to satisfy that bound (used with
`num ≥ den`, `e = 0`). -/
def floorLog2Up (num den : Nat) : Nat → Nat → Nat
  | 0, e => e
  | fuel + 1, e =>
    if num < den * 2 ^ (e + 1) then e else floorLog2Up num den fuel (e + 1)

/-- Fuel-bounded search for the smallest `k` with `den ≤ num * 2 ^ k`
(used with `num < den`, starting from `k = 0`). -/
def floorLog2Down (num den : Nat) : Nat → Nat → Nat
  | 0, k => k
  | fuel + 1, k =>
    if den ≤ num * 2 ^ k then k else floorLog2Down num den fuel (k + 1)

/-- The exponent `e` with `2 ^ e ≤ num / den < 2 ^ (e + 1)` for positive
`num`, `den` (the binade of the positive rational `num / den`). The fuel
of 300 covers every exponent reachable in this file's computations. -/
def floorLog2 (num den : Nat) : Int :=
  if den ≤ num then (floorLog2Up num den 300 0 : Int)
  else -(floorLog2Down num den 300 0 : Int)

/-- Round the rational `num / den` (with `den > 0`) to the nearest
integer, ties to even — the IEEE-754 default rounding. -/
def roundNearestEven (num den : Nat) : Nat :=
  let q := num / den
  let r := num % den
  if 2 * r < den then q
  else if den < 2 * r then q + 1
  else if q % 2 = 0 then q else q + 1

/-- Round the positive rational `num / den` to a binary32 significand and
exponent: the result `(sig, exp)` has value `sig * 2 ^ exp` with
`2 ^ 23 ≤ sig < 2 ^ 24`, rounded to nearest, ties to even. -/
def roundB32Pos (num den : Nat) : Nat × Int :=
  let e := floorLog2 num den
  let shift : Int := 23 - e
  let n2 := if 0 ≤ shift then num * 2 ^ shift.toNat else num
  let d2 := if 0 ≤ shift then den else den * 2 ^ (-shift).toNat
  let m := roundNearestEven n2 d2
  if m = 2 ^ 24 then (2 ^ 23, e - 22) else (m, e - 23)

/-- Round the rational `num / den` to binary32 (nearest, ties to even),
returned as a signed significand and exponent whose exact value is
`sig * 2 ^ exp`. Zero numerator gives zero; the exponent is not clamped
(no overflow or subnormal range), which is faithful for every value
reachable from 32-bit int inputs with a nonzero divisor. -/
def roundB32 (num den : Int) : Int × Int :=
  if num = 0 ∨ den = 0 then (0, 0)
  else
    let p := roundB32Pos num.natAbs den.natAbs
    if (0 < num ∧ 0 < den) ∨ (num < 0 ∧ den < 0) then ((p.1 : Int), p.2)
    else (-(p.1 : Int), p.2)

/-- Exact value (significand × 2^exp) of the single-precision expression
`((float)c / (float)m) * 100.f` from `setAchievementProgress`: each step
(int-to-float conversion of both operands, float division, float
multiplication by the exactly representable 100.0f) is correctly rounded
to binary32, nearest, ties to even. -/
def floatPercentage (c m : Int) : Int × Int :=
  let fc := roundB32 c 1
  let fm := roundB32 m 1
  let q :=
    if 0 ≤ fc.2 - fm.2 then roundB32 (fc.1 * 2 ^ (fc.2 - fm.2).toNat) fm.1
    else roundB32 fc.1 (fm.1 * 2 ^ (fm.2 - fc.2).toNat)
  if 0 ≤ q.2 then roundB32 (q.1 * 100 * 2 ^ q.2.toNat) 1
  else roundB32 (q.1 * 100) (2 ^ (-q.2).toNat)

/-- Floor of the exact value `sig * 2 ^ exp` of a binary32 result,
modelling `floor` followed by the int cast. -/
def floatFloor (p : Int × Int) : Int :=
  if 0 ≤ p.2 then p.1 * 2 ^ p.2.toNat
  else Int.fdiv p.1 (2 ^ (-p.2).toNat)

/-- The progress percentage `(int)floor(((float)currentProgress /
(float)maximumValue) * 100.f)` computed by `setAchievementProgress`, in
the exact binary32 model. -/
def progressPercent (currentProgress maximumValue : Int) : Int :=
  floatFloor (floatPercentage currentProgress maximumValue)

/-- `XBLManager::setAchievementProgress`: a no-op when the user handle or
the live context is null. Otherwise the progress percentage is computed by
the single-precision expression (modelled exactly by `progressPercent`),
the SDK update is issued (its success given by the oracle `sdkSucceeds`),
and on success with percentage 100 the cached flag for the id is set
true. -/
def XBLManager.setAchievementProgress (m : XBLManagerState)
    (sdkSucceeds : Bool) (achievementId : String)
    (currentProgress maximumValue : Int) : XBLManagerState :=
  if m.xboxUser && m.xboxLiveContext then
    let progress : Int := progressPercent currentProgress maximumValue
    if sdkSucceeds then
      if progress = 100 then
        { m with achievementStatus :=
            mapSet m.achievementStatus achievementId true }
      else m
    else m
  else m

/-- `XBLManager::isAchievementUnlocked`. The busy-wait of up to 5000 ms in
the Retrieving state is modelled by the oracle `statusAfterWait`, the
achievements status observed once the wait loop exits (it equals
Retrieving exactly when the timeout fired first); `cache` is the
achievement map read after the wait. -/
def XBLManager.isAchievementUnlocked
    (achievementsStatus statusAfterWait : XBLAchievementsStatus)
    (cache : List (String × Bool)) (achievementId : String)
    (defaultValue : Bool) : Bool :=
  if achievementsStatus = XBLAchievementsStatus.Uninitialized then
    false
  else if achievementsStatus = XBLAchievementsStatus.Retrieving ∧
      statusAfterWait = XBLAchievementsStatus.Retrieving then
    false
  else
    match mapGet cache achievementId with
    | some unlocked => unlocked
    | none => defaultValue

/-- Sign-out handler registered in `XBLManager::signIn`
(`add_sign_out_completed_handler` lambda): reset the user handle, the live
context and the provider, drop to Disconnected, and reset the achievement
cache and its status flag. -/
def XBLManager.onSignOutCompleted (m : XBLManagerState) : XBLManagerState :=
  { m with xboxUser := false
           xboxLiveContext := false
           gameSaveProvider := none
           status := XBLStatus.Disconnected
           achievementsStatus := XBLAchievementsStatus.Uninitialized
           achievementStatus := [] }

/-- Oracle for one page of `get_achievements_for_title_id` /
`get_next` results: an error result, an exception escaping the handler,
or a page of `(achievement id, progress state achieved)` items with its
`has_next` flag. -/
inductive PageOutcome
  | err
  | exn
  | ok (items : List (String × Bool)) (hasNext : Bool)
deriving DecidableEq, Repr

/-- Inner loop of `retrieveUserAchievementsState` recording one page:
`achievementStatus[achievement.id] = isAchieved` for each item in order. -/
def recordAchievements (cache : List (String × Bool)) :
    List (String × Bool) → List (String × Bool)
  | [] => cache
  | (id, isAchieved) :: rest =>
    recordAchievements (mapSet cache id isAchieved) rest

/-- The do/while pagination loop of `retrieveUserAchievementsState` over
the oracle stream of page outcomes: an error result or an exception sets
the status back to Uninitialized and stops; an `ok` page records its items,
then either follows `get_next` into the rest of the stream (an exhausted
stream models `get_next` itself throwing) or, with no next page, sets the
status to Ready. -/
def retrieveLoop :
    XBLManagerState → PageOutcome → List PageOutcome → XBLManagerState
  | m, PageOutcome.err, _ =>
    { m with achievementsStatus := XBLAchievementsStatus.Uninitialized }
  | m, PageOutcome.exn, _ =>
    { m with achievementsStatus := XBLAchievementsStatus.Uninitialized }
  | m, PageOutcome.ok items hasNext, rest =>
    let m2 := { m with achievementStatus :=
                  recordAchievements m.achievementStatus items }
    if hasNext then
      match rest with
      | [] =>
        { m2 with achievementsStatus := XBLAchievementsStatus.Uninitialized }
      | next :: more => retrieveLoop m2 next more
    else
      { m2 with achievementsStatus := XBLAchievementsStatus.Ready }

/-- `XBLManager::retrieveUserAchievementsState`: set the status flag to
Retrieving, clear the cache, then run the pagination loop on the oracle
stream (`firstResult` for the initial SDK call, `nextResults` for the
successive `get_next` calls). -/
def XBLManager.retrieveUserAchievementsState (firstResult : PageOutcome)
    (nextResults : List PageOutcome) (m : XBLManagerState) :
    XBLManagerState :=
  let m1 := { m with achievementsStatus := XBLAchievementsStatus.Retrieving
                     achievementStatus := [] }
  retrieveLoop m1 firstResult nextResults

/-- Characterization of the runs of the pagination loop that end with
every page consumed and none in error: the stream starts with `ok` pages
whose `has_next` flags are matched by further pages, down to a final page
with `has_next` false. -/
def allPagesOk : PageOutcome → List PageOutcome → Bool
  | PageOutcome.err, _ => false
  | PageOutcome.exn, _ => false
  | PageOutcome.ok _ hasNext, rest =>
    if hasNext then
      match rest with
      | [] => false
      | next :: more => allPagesOk next more
    else
      true

/-- The items of all pages the pagination loop consumes before stopping,
in consumption order. -/
def consumedItems : PageOutcome → List PageOutcome → List (String × Bool)
  | PageOutcome.err, _ => []
  | PageOutcome.exn, _ => []
  | PageOutcome.ok items hasNext, rest =>
    items ++
      (if hasNext then
        match rest with
        | [] => []
        | next :: more => consumedItems next more
      else [])

/-- Registry well-formedness used for object-identity reasoning: every
stored object was allocated before `nextObjId`, and objects stored under
distinct names are distinct allocations. This holds for every state
reachable from the initial manager state. -/
def registryWF (m : XBLManagerState) : Prop :=
  (∀ p ∈ m.saveStorage, p.2.objId < m.nextObjId) ∧
  (∀ p ∈ m.saveStorage, ∀ q ∈ m.saveStorage, p.1 ≠ q.1 → p.2.objId ≠ q.2.objId)

/-- Specification of the end state of the pagination loop: the status is
Ready exactly when the whole stream was consumed without error, otherwise
Uninitialized, and the cache holds all consumed items recorded in order
over the starting cache. -/
def retrieveOutcome (first : PageOutcome) (rest : List PageOutcome)
    (m : XBLManagerState) : XBLManagerState :=
  let s :=
    if allPagesOk first rest then XBLAchievementsStatus.Ready
    else XBLAchievementsStatus.Uninitialized
  let cache :=
    recordAchievements m.achievementStatus (consumedItems first rest)
  { m with achievementsStatus := s, achievementStatus := cache }

theorem mapGet_mapSet {α : Type} (l : List (String × α)) (k k' : String)
    (v : α) :
    mapGet (mapSet l k v) k' = if k' = k then some v else mapGet l k' := by
  induction l with
  | nil =>
    by_cases h : k = k'
    · subst h
      simp only [mapSet, mapGet, if_pos rfl]
    · simp only [mapSet, mapGet]
      rw [if_neg h, if_neg (fun hc => h hc.symm)]
  | cons hd tl ih =>
    obtain ⟨k0, v0⟩ := hd
    by_cases h0 : k0 = k
    · subst h0
      simp only [mapSet, if_pos rfl, mapGet]
      by_cases h : k0 = k'
      · subst h
        rw [if_pos rfl, if_pos rfl]
      · rw [if_neg h, if_neg (fun hc => h hc.symm), if_neg h]
    · simp only [mapSet, if_neg h0, mapGet]
      by_cases h1 : k0 = k'
      · subst h1
        rw [if_pos rfl, if_neg h0, if_pos rfl]
      · rw [if_neg h1, ih, if_neg h1]

theorem mapGet_mem {α : Type} (l : List (String × α)) (k : String) (v : α)
    (h : mapGet l k = some v) : (k, v) ∈ l := by
  induction l with
  | nil => exact absurd h (by simp [mapGet])
  | cons hd tl ih =>
    obtain ⟨k0, v0⟩ := hd
    by_cases h0 : k0 = k
    · subst h0
      simp only [mapGet, if_pos rfl] at h
      obtain rfl : v0 = v := Option.some.inj h
      exact List.mem_cons_self _ _
    · simp only [mapGet, if_neg h0] at h
      exact List.mem_cons_of_mem _ (ih h)

theorem updateContainer_containerName (status : XBLStatus)
    (provider : Option Nat) (sd : XBLSaveDataState) :
    (XBLSaveData.updateContainer status provider sd).containerName
      = sd.containerName := by
  unfold XBLSaveData.updateContainer
  split
  · split <;> rfl
  · rfl

theorem updateContainer_objId (status : XBLStatus)
    (provider : Option Nat) (sd : XBLSaveDataState) :
    (XBLSaveData.updateContainer status provider sd).objId = sd.objId := by
  unfold XBLSaveData.updateContainer
  split
  · split <;> rfl
  · rfl

theorem updateContainer_isSaving (status : XBLStatus)
    (provider : Option Nat) (sd : XBLSaveDataState) :
    (XBLSaveData.updateContainer status provider sd).isSaving
      = sd.isSaving := by
  unfold XBLSaveData.updateContainer
  split
  · split <;> rfl
  · rfl

theorem updateContainer_isSome_of_connected (provider : Option Nat)
    (sd : XBLSaveDataState) :
    (XBLSaveData.updateContainer XBLStatus.Connected provider
        sd).gameSaveContainer.isSome = true := by
  unfold XBLSaveData.updateContainer
  rw [if_pos rfl]
  cases h : sd.gameSaveContainer <;> simp [h]

theorem updateContainer_isNone_of_not_connected (status : XBLStatus)
    (provider : Option Nat) (sd : XBLSaveDataState)
    (h : status ≠ XBLStatus.Connected) :
    (XBLSaveData.updateContainer status provider sd).gameSaveContainer
      = none := by
  unfold XBLSaveData.updateContainer
  rw [if_neg h]

/-- Claim C5: token retrieval is gated by connection status. For every
parameter set, `getAuthToken` resolves the future to Error without issuing
any vendor request when status is not Connected; when status is Connected
it issues the vendor token request with the given parameters and resolves
the future to Error on an SDK error and to a token-with-capabilities
result on SDK success. -/
theorem C5_token_gated_by_connection (m : XBLManagerState)
    (parameters : AuthTokenParameters) (sdkResult : TokenSdkResult) :
    (m.status ≠ XBLStatus.Connected →
      XBLManager.getAuthToken m parameters sdkResult
        = (none, AuthTokenResolved.error)) ∧
    (m.status = XBLStatus.Connected →
      (XBLManager.getAuthToken m parameters sdkResult).1 = some parameters ∧
      (∀ message, sdkResult = TokenSdkResult.err message →
        (XBLManager.getAuthToken m parameters sdkResult).2
          = AuthTokenResolved.error) ∧
      (∀ payload, sdkResult = TokenSdkResult.ok payload →
        (XBLManager.getAuthToken m parameters sdkResult).2
          = AuthTokenResolved.token payload.gamertag payload.xboxUserId
              payload.token (parsePrivileges payload.privileges))) := by
  constructor
  · intro h
    unfold XBLManager.getAuthToken
    rw [if_neg h]
  · intro h
    unfold XBLManager.getAuthToken
    rw [if_pos h]
    refine ⟨rfl, ?_, ?_⟩
    · intro message hm
      subst hm
      rfl
    · intro payload hp
      subst hp
      rfl

theorem C5_witness :
    XBLManager.getAuthToken
        ⟨XBLStatus.Disconnected, none, [], XBLAchievementsStatus.Uninitialized,
          [], false, false, 0⟩
        ⟨"GET", "https://x", "h"⟩
        (TokenSdkResult.ok ⟨('2' :: '5' :: '4' :: []), "g", "u", "t"⟩)
      = (none, AuthTokenResolved.error) ∧
    (XBLManager.getAuthToken
        ⟨XBLStatus.Connected, some 1, [], XBLAchievementsStatus.Ready,
          [], true, true, 0⟩
        ⟨"GET", "https://x", "h"⟩
        (TokenSdkResult.ok ⟨('2' :: '5' :: '4' :: []), "g", "u", "t"⟩)).2
      = AuthTokenResolved.token "g" "u" "t" ⟨true, false⟩ := by
  constructor
  · exact (C5_token_gated_by_connection
      ⟨XBLStatus.Disconnected, none, [], XBLAchievementsStatus.Uninitialized,
        [], false, false, 0⟩
      ⟨"GET", "https://x", "h"⟩
      (TokenSdkResult.ok ⟨('2' :: '5' :: '4' :: []), "g", "u", "t"⟩)).1
      (by decide)
  · have h := ((C5_token_gated_by_connection
      ⟨XBLStatus.Connected, some 1, [], XBLAchievementsStatus.Ready,
        [], true, true, 0⟩
      ⟨"GET", "https://x", "h"⟩
      (TokenSdkResult.ok ⟨('2' :: '5' :: '4' :: []), "g", "u", "t"⟩)).2
      rfl).2.2 ⟨('2' :: '5' :: '4' :: []), "g", "u", "t"⟩ rfl
    rw [h]
    have : parsePrivileges ('2' :: '5' :: '4' :: []) = ⟨true, false⟩ := by
      decide
    rw [this]

/-- Claim C6: achievement queries respect the cache status flag. With the
status Uninitialized the query returns false regardless of the default;
with the status Ready it returns the cached boolean when the cache
contains the id and the supplied default otherwise; with the status
Retrieving it busy-waits, and returns false when the status observed after
the wait is still Retrieving (the 5000 ms timeout fired first). -/
theorem C6_isAchievementUnlocked_respects_status
    (achievementsStatus statusAfterWait : XBLAchievementsStatus)
    (cache : List (String × Bool)) (achievementId : String)
    (defaultValue : Bool) :
    (achievementsStatus = XBLAchievementsStatus.Uninitialized →
      XBLManager.isAchievementUnlocked achievementsStatus statusAfterWait
        cache achievementId defaultValue = false) ∧
    (achievementsStatus = XBLAchievementsStatus.Ready →
      XBLManager.isAchievementUnlocked achievementsStatus statusAfterWait
        cache achievementId defaultValue
        = (mapGet cache achievementId).getD defaultValue) ∧
    (achievementsStatus = XBLAchievementsStatus.Retrieving →
      statusAfterWait = XBLAchievementsStatus.Retrieving →
      XBLManager.isAchievementUnlocked achievementsStatus statusAfterWait
        cache achievementId defaultValue = false) := by
  refine ⟨?_, ?_, ?_⟩
  · intro h
    subst h
    rfl
  · intro h
    subst h
    unfold XBLManager.isAchievementUnlocked
    simp only [if_neg (by decide : ¬(XBLAchievementsStatus.Ready
      = XBLAchievementsStatus.Uninitialized))]
    rw [if_neg (fun hc => by exact absurd hc.1 (by decide))]
    cases h : mapGet cache achievementId <;> simp [h]
  · intro h h2
    subst h
    subst h2
    rfl

theorem C6_witness :
    XBLManager.isAchievementUnlocked XBLAchievementsStatus.Uninitialized
        XBLAchievementsStatus.Uninitialized [("a", true)] "a" true = false ∧
    XBLManager.isAchievementUnlocked XBLAchievementsStatus.Ready
        XBLAchievementsStatus.Ready [("a", true)] "a" false = true ∧
    XBLManager.isAchievementUnlocked XBLAchievementsStatus.Ready
        XBLAchievementsStatus.Ready [("a", true)] "b" true = true ∧
    XBLManager.isAchievementUnlocked XBLAchievementsStatus.Retrieving
        XBLAchievementsStatus.Retrieving [("a", true)] "a" true = false := by
  refine ⟨?_, ?_, ?_, ?_⟩
  · exact (C6_isAchievementUnlocked_respects_status
      XBLAchievementsStatus.Uninitialized XBLAchievementsStatus.Uninitialized
      [("a", true)] "a" true).1 rfl
  · rw [(C6_isAchievementUnlocked_respects_status
      XBLAchievementsStatus.Ready XBLAchievementsStatus.Ready
      [("a", true)] "a" false).2.1 rfl]
    decide
  · rw [(C6_isAchievementUnlocked_respects_status
      XBLAchievementsStatus.Ready XBLAchievementsStatus.Ready
      [("a", true)] "b" true).2.1 rfl]
    decide
  · exact (C6_isAchievementUnlocked_respects_status
      XBLAchievementsStatus.Retrieving XBLAchievementsStatus.Retrieving
      [("a", true)] "a" true).2.2 rfl rfl

/-- Claim C8: the sign-out-completed handler resets the user handle, the
live-services context and the storage provider, drops the connection
status to Disconnected, sets the achievements status to Uninitialized and
empties the achievement cache. -/
theorem C8_signout_destroys_session (m : XBLManagerState) :
    (XBLManager.onSignOutCompleted m).xboxUser = false ∧
    (XBLManager.onSignOutCompleted m).xboxLiveContext = false ∧
    (XBLManager.onSignOutCompleted m).gameSaveProvider = none ∧
    (XBLManager.onSignOutCompleted m).status = XBLStatus.Disconnected ∧
    (XBLManager.onSignOutCompleted m).achievementsStatus
      = XBLAchievementsStatus.Uninitialized ∧
    (XBLManager.onSignOutCompleted m).achievementStatus = [] :=
  ⟨rfl, rfl, rfl, rfl, rfl, rfl⟩

/-- Claim C9: the `XBLSaveData` constructor stores the container name
"save" when given an empty name, and stores any non-empty name
unchanged. -/
theorem C9_empty_name_normalized (status : XBLStatus) (provider : Option Nat)
    (objId : Nat) (name : String) :
    (XBLSaveData.create status provider objId "").containerName = "save" ∧
    (name ≠ "" →
      (XBLSaveData.create status provider objId name).containerName
        = name) := by
  constructor
  · rw [XBLSaveData.create, updateContainer_containerName]
    have he : ("" : String).isEmpty = true := (String.isEmpty_iff "").mpr rfl
    simp [he]
  · intro h
    rw [XBLSaveData.create, updateContainer_containerName]
    have he : name.isEmpty = false := by
      rw [Bool.eq_false_iff]
      intro hc
      exact h ((String.isEmpty_iff name).mp hc)
    simp [he]

theorem C9_witness :
    (XBLSaveData.create XBLStatus.Disconnected none 0 "").containerName
      = "save" ∧
    (XBLSaveData.create XBLStatus.Connected (some 1) 1 "слот").containerName
      = "слот" :=
  ⟨(C9_empty_name_normalized XBLStatus.Disconnected none 0 "").1,
   (C9_empty_name_normalized XBLStatus.Connected (some 1) 1 "слот").2
     (by decide)⟩

/-- Claim C10 as stated is false of the program: at currentProgress =
99999999, maximumValue = 100000000 the single-precision computation
rounds both ints to the float 1.0e8, so `((float)c / (float)m) * 100.f`
is exactly 100.0 and the program sets the cached flag on SDK success,
while the claim's exact formula floor(100 * currentProgress /
maximumValue) gives 99, not 100. -/
theorem C10_counterexample_float_rounding :
    XBLManager.setAchievementProgress
        ⟨XBLStatus.Connected, some 1, [], XBLAchievementsStatus.Ready, [],
          true, true, 0⟩ true "a" 99999999 100000000
      = ⟨XBLStatus.Connected, some 1, [], XBLAchievementsStatus.Ready,
          [("a", true)], true, true, 0⟩ ∧
    progressPercent 99999999 100000000 = 100 ∧
    Int.fdiv (100 * 99999999) 100000000 = 99 := by
  decide

/-- Claim C10 amended: `setAchievementProgress` is a silent no-op when the
user handle or the live-services context is null; when both are non-null,
the cached unlocked flag for the id is set to true exactly when the SDK
update succeeds and the computed percentage — `(int)floor(((float)
currentProgress / (float)maximumValue) * 100.f)` evaluated in IEEE-754
single precision, modelled exactly by `progressPercent` — equals 100 (and
the state is otherwise unchanged). -/
theorem C10_setAchievementProgress_gating (m : XBLManagerState)
    (sdkSucceeds : Bool) (achievementId : String)
    (currentProgress maximumValue : Int) :
    (m.xboxUser = false ∨ m.xboxLiveContext = false →
      XBLManager.setAchievementProgress m sdkSucceeds achievementId
        currentProgress maximumValue = m) ∧
    (m.xboxUser = true → m.xboxLiveContext = true →
      XBLManager.setAchievementProgress m sdkSucceeds achievementId
        currentProgress maximumValue
        = if sdkSucceeds = true ∧
              progressPercent currentProgress maximumValue = 100
          then { m with achievementStatus :=
                  mapSet m.achievementStatus achievementId true }
          else m) := by
  constructor
  · intro h
    unfold XBLManager.setAchievementProgress
    rcases h with h | h <;> rw [h] <;> simp
  · intro hu hc
    unfold XBLManager.setAchievementProgress
    rw [hu, hc]
    by_cases hs : sdkSucceeds = true
    · by_cases hp : progressPercent currentProgress maximumValue = 100
      · simp [hs, hp]
      · simp [hs, hp]
    · simp [hs]

theorem C10_witness :
    XBLManager.setAchievementProgress
        ⟨XBLStatus.Connected, some 1, [], XBLAchievementsStatus.Ready, [],
          false, true, 0⟩ true "a" 5 5
      = ⟨XBLStatus.Connected, some 1, [], XBLAchievementsStatus.Ready, [],
          false, true, 0⟩ ∧
    XBLManager.setAchievementProgress
        ⟨XBLStatus.Connected, some 1, [], XBLAchievementsStatus.Ready, [],
          true, true, 0⟩ true "a" 5 5
      = ⟨XBLStatus.Connected, some 1, [], XBLAchievementsStatus.Ready,
          [("a", true)], true, true, 0⟩ ∧
    XBLManager.setAchievementProgress
        ⟨XBLStatus.Connected, some 1, [], XBLAchievementsStatus.Ready, [],
          true, true, 0⟩ true "a" 4 5
      = ⟨XBLStatus.Connected, some 1, [], XBLAchievementsStatus.Ready, [],
          true, true, 0⟩ := by
  refine ⟨?_, ?_, ?_⟩
  · exact (C10_setAchievementProgress_gating
      ⟨XBLStatus.Connected, some 1, [], XBLAchievementsStatus.Ready, [],
        false, true, 0⟩ true "a" 5 5).1 (Or.inl rfl)
  · rw [(C10_setAchievementProgress_gating
      ⟨XBLStatus.Connected, some 1, [], XBLAchievementsStatus.Ready, [],
        true, true, 0⟩ true "a" 5 5).2 rfl rfl]
    decide
  · rw [(C10_setAchievementProgress_gating
      ⟨XBLStatus.Connected, some 1, [], XBLAchievementsStatus.Ready, [],
        true, true, 0⟩ true "a" 4 5).2 rfl rfl]
    decide

theorem getData_not_connected (status : XBLStatus) (provider : Option Nat)
    (storeBefore storeAfter : List (String × Bytes))
    (getStatus : GameSaveErrorStatus) (saveClearsInTime : Bool)
    (sd : XBLSaveDataState) (path : String)
    (h : status ≠ XBLStatus.Connected) :
    XBLSaveData.getData status provider storeBefore storeAfter getStatus
        saveClearsInTime sd path
      = Except.error "Container is not ready yet!" := by
  have hn := updateContainer_isNone_of_not_connected status provider sd h
  unfold XBLSaveData.getData
  simp [XBLSaveData.isReady, hn]

theorem setData_not_connected (status : XBLStatus) (provider : Option Nat)
    (store : List (String × Bytes)) (submitStatus : GameSaveErrorStatus)
    (sd : XBLSaveDataState) (path : String) (data : Bytes) (commit : Bool)
    (h : status ≠ XBLStatus.Connected) :
    XBLSaveData.setData status provider store submitStatus sd path data commit
      = Except.error "Container is not ready yet!" := by
  have hn := updateContainer_isNone_of_not_connected status provider sd h
  unfold XBLSaveData.setData
  simp [XBLSaveData.isReady, hn]

theorem removeData_not_connected (status : XBLStatus) (provider : Option Nat)
    (store : List (String × Bytes)) (submitStatus : GameSaveErrorStatus)
    (sd : XBLSaveDataState) (path : String)
    (h : status ≠ XBLStatus.Connected) :
    XBLSaveData.removeData status provider store submitStatus sd path
      = Except.error "Container is not ready yet!" := by
  have hn := updateContainer_isNone_of_not_connected status provider sd h
  unfold XBLSaveData.removeData
  simp [XBLSaveData.isReady, hn]

theorem enumerate_not_connected (status : XBLStatus) (provider : Option Nat)
    (blobNames : List String) (queryStatus : GameSaveErrorStatus)
    (sd : XBLSaveDataState) (root : String)
    (h : status ≠ XBLStatus.Connected) :
    XBLSaveData.enumerate status provider blobNames queryStatus sd root
      = Except.error "Container is not ready yet!" := by
  have hn := updateContainer_isNone_of_not_connected status provider sd h
  unfold XBLSaveData.enumerate
  simp [XBLSaveData.isReady, hn]

theorem getData_connected_isOk (provider : Option Nat)
    (storeBefore storeAfter : List (String × Bytes))
    (getStatus : GameSaveErrorStatus) (saveClearsInTime : Bool)
    (sd : XBLSaveDataState) (path : String) :
    (XBLSaveData.getData XBLStatus.Connected provider storeBefore storeAfter
        getStatus saveClearsInTime sd path).isOk = true := by
  have hs := updateContainer_isSome_of_connected provider sd
  unfold XBLSaveData.getData
  simp only [XBLSaveData.isReady, hs, Bool.not_true, Bool.false_eq_true,
    if_false]
  split
  · split <;> rfl
  · rfl

theorem setData_connected_isOk (provider : Option Nat)
    (store : List (String × Bytes)) (submitStatus : GameSaveErrorStatus)
    (sd : XBLSaveDataState) (path : String) (data : Bytes) (commit : Bool) :
    (XBLSaveData.setData XBLStatus.Connected provider store submitStatus sd
        path data commit).isOk = true := by
  have hs := updateContainer_isSome_of_connected provider sd
  unfold XBLSaveData.setData
  simp only [XBLSaveData.isReady, hs, Bool.not_true, Bool.false_eq_true,
    if_false]
  rfl

theorem removeData_connected_isOk (provider : Option Nat)
    (store : List (String × Bytes)) (submitStatus : GameSaveErrorStatus)
    (sd : XBLSaveDataState) (path : String) :
    (XBLSaveData.removeData XBLStatus.Connected provider store submitStatus
        sd path).isOk = true := by
  have hs := updateContainer_isSome_of_connected provider sd
  unfold XBLSaveData.removeData
  simp only [XBLSaveData.isReady, hs, Bool.not_true, Bool.false_eq_true,
    if_false]
  rfl

theorem enumerate_connected_isOk (provider : Option Nat)
    (blobNames : List String) (queryStatus : GameSaveErrorStatus)
    (sd : XBLSaveDataState) (root : String) :
    (XBLSaveData.enumerate XBLStatus.Connected provider blobNames queryStatus
        sd root).isOk = true := by
  have hs := updateContainer_isSome_of_connected provider sd
  unfold XBLSaveData.enumerate
  simp only [XBLSaveData.isReady, hs, Bool.not_true, Bool.false_eq_true,
    if_false]
  split <;> rfl

/-- Claim C1: save-data operations are gated by connection status. For
every path argument, each of getData, setData, removeData and enumerate
throws the "Container is not ready yet!" exception when the manager's
status is not Connected (updateContainer resets the container handle, so
isReady is false), and does not throw that exception when status is
Connected and the container handle is lazily established (the result is an
ordinary value). -/
theorem C1_save_ops_gated_by_status (status : XBLStatus)
    (provider : Option Nat)
    (storeBefore storeAfter storeSet storeRemove : List (String × Bytes))
    (getStatus submitStatus removeStatus queryStatus : GameSaveErrorStatus)
    (saveClearsInTime commit : Bool) (blobNames : List String)
    (sd : XBLSaveDataState) (pathGet pathSet pathRemove root : String)
    (data : Bytes) :
    (status ≠ XBLStatus.Connected →
      XBLSaveData.getData status provider storeBefore storeAfter getStatus
          saveClearsInTime sd pathGet
        = Except.error "Container is not ready yet!" ∧
      XBLSaveData.setData status provider storeSet submitStatus sd pathSet
          data commit
        = Except.error "Container is not ready yet!" ∧
      XBLSaveData.removeData status provider storeRemove removeStatus sd
          pathRemove
        = Except.error "Container is not ready yet!" ∧
      XBLSaveData.enumerate status provider blobNames queryStatus sd root
        = Except.error "Container is not ready yet!") ∧
    (status = XBLStatus.Connected →
      (XBLSaveData.getData status provider storeBefore storeAfter getStatus
          saveClearsInTime sd pathGet).isOk = true ∧
      (XBLSaveData.setData status provider storeSet submitStatus sd pathSet
          data commit).isOk = true ∧
      (XBLSaveData.removeData status provider storeRemove removeStatus sd
          pathRemove).isOk = true ∧
      (XBLSaveData.enumerate status provider blobNames queryStatus sd
          root).isOk = true) := by
  constructor
  · intro h
    exact ⟨getData_not_connected status provider storeBefore storeAfter
        getStatus saveClearsInTime sd pathGet h,
      setData_not_connected status provider storeSet submitStatus sd pathSet
        data commit h,
      removeData_not_connected status provider storeRemove removeStatus sd
        pathRemove h,
      enumerate_not_connected status provider blobNames queryStatus sd root h⟩
  · intro h
    subst h
    exact ⟨getData_connected_isOk provider storeBefore storeAfter getStatus
        saveClearsInTime sd pathGet,
      setData_connected_isOk provider storeSet submitStatus sd pathSet data
        commit,
      removeData_connected_isOk provider storeRemove removeStatus sd
        pathRemove,
      enumerate_connected_isOk provider blobNames queryStatus sd root⟩

theorem C1_witness :
    (XBLSaveData.getData XBLStatus.Disconnected none [] []
        GameSaveErrorStatus.Ok true ⟨0, "save", false, none⟩ "p"
      = Except.error "Container is not ready yet!" ∧
     XBLSaveData.setData XBLStatus.Disconnected none []
        GameSaveErrorStatus.Ok ⟨0, "save", false, none⟩ "p" [7] true
      = Except.error "Container is not ready yet!" ∧
     XBLSaveData.removeData XBLStatus.Disconnected none []
        GameSaveErrorStatus.Ok ⟨0, "save", false, none⟩ "p"
      = Except.error "Container is not ready yet!" ∧
     XBLSaveData.enumerate XBLStatus.Disconnected none []
        GameSaveErrorStatus.Ok ⟨0, "save", false, none⟩ ""
      = Except.error "Container is not ready yet!") ∧
    ((XBLSaveData.getData XBLStatus.Connected (some 1) [] []
        GameSaveErrorStatus.Ok true ⟨0, "save", false, none⟩ "p").isOk
      = true ∧
     (XBLSaveData.setData XBLStatus.Connected (some 1) []
        GameSaveErrorStatus.Ok ⟨0, "save", false, none⟩ "p" [7] true).isOk
      = true ∧
     (XBLSaveData.removeData XBLStatus.Connected (some 1) []
        GameSaveErrorStatus.Ok ⟨0, "save", false, none⟩ "p").isOk = true ∧
     (XBLSaveData.enumerate XBLStatus.Connected (some 1) []
        GameSaveErrorStatus.Ok ⟨0, "save", false, none⟩ "").isOk = true) :=
  ⟨(C1_save_ops_gated_by_status XBLStatus.Disconnected none [] [] [] []
      GameSaveErrorStatus.Ok GameSaveErrorStatus.Ok GameSaveErrorStatus.Ok
      GameSaveErrorStatus.Ok true true [] ⟨0, "save", false, none⟩
      "p" "p" "p" "" [7]).1 (by decide),
   (C1_save_ops_gated_by_status XBLStatus.Connected (some 1) [] [] [] []
      GameSaveErrorStatus.Ok GameSaveErrorStatus.Ok GameSaveErrorStatus.Ok
      GameSaveErrorStatus.Ok true true [] ⟨0, "save", false, none⟩
      "p" "p" "p" "" [7]).2 rfl⟩

/-- Claim C2 as stated is false: with a setData write of bytes `[2]` to
key "p" still in flight (`isSaving` true) that does not finish within the
3000 ms busy-wait timeout, getData on the same container times out, logs a
warning, and reads the blob store anyway, returning the pre-write bytes
`[1]` instead of the submitted update `[2]`. -/
theorem C2_counterexample_timeout_bypasses_write :
    XBLSaveData.getData XBLStatus.Connected (some 1) [("p", [1])]
        [("p", [2])] GameSaveErrorStatus.Ok false
        ⟨0, "save", true, some ⟨1, "save"⟩⟩ "p"
      = Except.ok ([1], ⟨0, "save", true, some ⟨1, "save"⟩⟩) ∧
    mapGet [("p", ([2] : Bytes))] "p" = some [2] ∧
    ([1] : Bytes) ≠ [2] := by
  decide

/-- Claim C2 amended: getData serializes against an in-flight setData only
up to a 3000 ms busy-wait timeout. Whenever no write is in flight, or the
in-flight write completes before the timeout, the read happens after the
write and observes the post-write blob store (hence the submitted update);
when the timeout fires first, the read proceeds anyway and may observe the
pre-write store. -/
theorem C2_read_serialized_within_timeout (provider : Option Nat)
    (storeBeforeWrite storeAfterWrite : List (String × Bytes))
    (saveClearsInTime : Bool) (sd : XBLSaveDataState) (path : String)
    (h : sd.isSaving = false ∨ saveClearsInTime = true) :
    XBLSaveData.getData XBLStatus.Connected provider storeBeforeWrite
        storeAfterWrite GameSaveErrorStatus.Ok saveClearsInTime sd path
      = Except.ok ((mapGet storeAfterWrite path).getD [],
          XBLSaveData.updateContainer XBLStatus.Connected provider sd) := by
  have hs := updateContainer_isSome_of_connected provider sd
  have hsav := updateContainer_isSaving XBLStatus.Connected provider sd
  have hcond : ((XBLSaveData.updateContainer XBLStatus.Connected provider
      sd).isSaving && !saveClearsInTime) = false := by
    rcases h with h | h
    · rw [hsav, h, Bool.false_and]
    · rw [h, Bool.not_true, Bool.and_false]
  unfold XBLSaveData.getData
  simp only [XBLSaveData.isReady, hs, Bool.not_true, Bool.false_eq_true,
    if_false, hcond]
  cases hm : mapGet storeAfterWrite path <;> simp [hm]

theorem C2_read_serialized_witness :
    XBLSaveData.getData XBLStatus.Connected (some 1) [("p", [1])]
        [("p", [2])] GameSaveErrorStatus.Ok true
        ⟨0, "save", true, some ⟨1, "save"⟩⟩ "p"
      = Except.ok ([2], ⟨0, "save", true, some ⟨1, "save"⟩⟩) := by
  rw [C2_read_serialized_within_timeout (some 1) [("p", [1])] [("p", [2])]
    true ⟨0, "save", true, some ⟨1, "save"⟩⟩ "p" (Or.inr rfl)]
  decide

/-- Claim C3: containers are recreated after disconnect/reconnect. When
recreateCloudSaveContainer is called while status is Connected and the
re-acquisition of connected storage yields a new provider, the manager
ends with that provider stored and status Connected, and every container
handle in the save-container registry has been recreated as a fresh
container of the new provider (under its own container name); when status
is not Connected the call changes nothing. -/
theorem C3_containers_recreated_on_reconnect (m : XBLManagerState)
    (newProvider : Option Nat) (pid : Nat) :
    (m.status = XBLStatus.Connected → newProvider = some pid →
      (XBLManager.recreateCloudSaveContainer newProvider m).gameSaveProvider
        = some pid ∧
      (XBLManager.recreateCloudSaveContainer newProvider m).status
        = XBLStatus.Connected ∧
      (XBLManager.recreateCloudSaveContainer newProvider m).saveStorage
        = m.saveStorage.map (fun p => (p.1, { p.2 with gameSaveContainer := some (createContainer pid p.2.containerName) }))) ∧
    (m.status ≠ XBLStatus.Connected →
      XBLManager.recreateCloudSaveContainer newProvider m = m) := by
  constructor
  · intro hs hp
    subst hp
    unfold XBLManager.recreateCloudSaveContainer
    rw [if_pos hs]
    exact ⟨rfl, rfl, rfl⟩
  · intro hs
    unfold XBLManager.recreateCloudSaveContainer
    rw [if_neg hs]

theorem C3_witness :
    (XBLManager.recreateCloudSaveContainer (some 2)
        ⟨XBLStatus.Connected, some 1,
          [("x", ⟨0, "x", false, some ⟨1, "x"⟩⟩)],
          XBLAchievementsStatus.Ready, [], true, true, 1⟩).gameSaveProvider
      = some 2 ∧
    (XBLManager.recreateCloudSaveContainer (some 2)
        ⟨XBLStatus.Connected, some 1,
          [("x", ⟨0, "x", false, some ⟨1, "x"⟩⟩)],
          XBLAchievementsStatus.Ready, [], true, true, 1⟩).saveStorage
      = [("x", ⟨0, "x", false, some ⟨2, "x"⟩⟩)] ∧
    XBLManager.recreateCloudSaveContainer (some 2)
        ⟨XBLStatus.Disconnected, some 1,
          [("x", ⟨0, "x", false, some ⟨1, "x"⟩⟩)],
          XBLAchievementsStatus.Ready, [], true, true, 1⟩
      = ⟨XBLStatus.Disconnected, some 1,
          [("x", ⟨0, "x", false, some ⟨1, "x"⟩⟩)],
          XBLAchievementsStatus.Ready, [], true, true, 1⟩ := by
  refine ⟨?_, ?_, ?_⟩
  · exact ((C3_containers_recreated_on_reconnect
      ⟨XBLStatus.Connected, some 1, [("x", ⟨0, "x", false, some ⟨1, "x"⟩⟩)],
        XBLAchievementsStatus.Ready, [], true, true, 1⟩
      (some 2) 2).1 rfl rfl).1
  · rw [((C3_containers_recreated_on_reconnect
      ⟨XBLStatus.Connected, some 1, [("x", ⟨0, "x", false, some ⟨1, "x"⟩⟩)],
        XBLAchievementsStatus.Ready, [], true, true, 1⟩
      (some 2) 2).1 rfl rfl).2.2]
    decide
  · exact (C3_containers_recreated_on_reconnect
      ⟨XBLStatus.Disconnected, some 1, [("x", ⟨0, "x", false, some ⟨1, "x"⟩⟩)],
        XBLAchievementsStatus.Ready, [], true, true, 1⟩
      (some 2) 2).2 (by decide)

theorem create_objId (status : XBLStatus) (provider : Option Nat)
    (objId : Nat) (name : String) :
    (XBLSaveData.create status provider objId name).objId = objId := by
  rw [XBLSaveData.create, updateContainer_objId]

theorem getSaveContainer_miss (m : XBLManagerState) (name : String)
    (hm : mapGet m.saveStorage name = none) :
    XBLManager.getSaveContainer m name
      = (XBLSaveData.create m.status m.gameSaveProvider m.nextObjId name,
         { m with saveStorage := mapSet m.saveStorage name (XBLSaveData.create m.status m.gameSaveProvider m.nextObjId name), nextObjId := m.nextObjId + 1 }) := by
  unfold XBLManager.getSaveContainer
  rw [hm]

theorem getSaveContainer_hit (m : XBLManagerState) (name : String)
    (save : XBLSaveDataState)
    (hm : mapGet m.saveStorage name = some save) :
    XBLManager.getSaveContainer m name = (save, m) := by
  unfold XBLManager.getSaveContainer
  rw [hm]

/-- Claim C4: the save-container registry memoizes by name. A first call
with a name missing from the registry constructs a fresh save-data object
(via the XBLSaveData constructor, with a fresh allocation identity) and
stores it under that name; a call with a name already present returns the
stored object and leaves the manager unchanged (no new object); a repeated
call with the same name returns the very object the first call produced;
and calls with distinct names return distinct objects (distinct
allocation identities), given the registry invariant. -/
theorem C4_registry_memoizes_by_name (m : XBLManagerState)
    (name n1 n2 : String) (hwf : registryWF m) :
    (mapGet m.saveStorage name = none →
      (XBLManager.getSaveContainer m name).1
        = XBLSaveData.create m.status m.gameSaveProvider m.nextObjId name ∧
      mapGet (XBLManager.getSaveContainer m name).2.saveStorage name
        = some (XBLManager.getSaveContainer m name).1) ∧
    (∀ save, mapGet m.saveStorage name = some save →
      XBLManager.getSaveContainer m name = (save, m)) ∧
    (XBLManager.getSaveContainer (XBLManager.getSaveContainer m name).2 name
      = ((XBLManager.getSaveContainer m name).1,
         (XBLManager.getSaveContainer m name).2)) ∧
    (n1 ≠ n2 →
      (XBLManager.getSaveContainer m n1).1.objId ≠
      (XBLManager.getSaveContainer
        (XBLManager.getSaveContainer m n1).2 n2).1.objId) := by
  refine ⟨?_, ?_, ?_, ?_⟩
  · intro hm
    rw [getSaveContainer_miss m name hm]
    refine ⟨rfl, ?_⟩
    show mapGet (mapSet m.saveStorage name (XBLSaveData.create m.status m.gameSaveProvider m.nextObjId name)) name = _
    rw [mapGet_mapSet, if_pos rfl]
  · intro save hm
    exact getSaveContainer_hit m name save hm
  · cases hm : mapGet m.saveStorage name with
    | none =>
      rw [getSaveContainer_miss m name hm]
      refine getSaveContainer_hit _ name _ ?_
      show mapGet (mapSet m.saveStorage name (XBLSaveData.create m.status m.gameSaveProvider m.nextObjId name)) name = _
      rw [mapGet_mapSet, if_pos rfl]
    | some save =>
      rw [getSaveContainer_hit m name save hm]
      exact getSaveContainer_hit m name save hm
  · intro hne
    cases hm1 : mapGet m.saveStorage n1 with
    | none =>
      rw [getSaveContainer_miss m n1 hm1]
      have hget2 : mapGet (mapSet m.saveStorage n1 (XBLSaveData.create m.status m.gameSaveProvider m.nextObjId n1)) n2 = mapGet m.saveStorage n2 := by
        rw [mapGet_mapSet, if_neg (fun hc => hne hc.symm)]
      cases hm2 : mapGet m.saveStorage n2 with
      | none =>
        rw [getSaveContainer_miss _ n2 (hget2.trans hm2)]
        dsimp only
        rw [create_objId, create_objId]
        omega
      | some s2 =>
        rw [getSaveContainer_hit _ n2 s2 (hget2.trans hm2)]
        have hlt := hwf.1 (n2, s2) (mapGet_mem m.saveStorage n2 s2 hm2)
        dsimp only at hlt ⊢
        rw [create_objId]
        omega
    | some s1 =>
      rw [getSaveContainer_hit m n1 s1 hm1]
      cases hm2 : mapGet m.saveStorage n2 with
      | none =>
        rw [getSaveContainer_miss m n2 hm2]
        have hlt := hwf.1 (n1, s1) (mapGet_mem m.saveStorage n1 s1 hm1)
        dsimp only at hlt ⊢
        rw [create_objId]
        omega
      | some s2 =>
        rw [getSaveContainer_hit m n2 s2 hm2]
        have hd := hwf.2 (n1, s1) (mapGet_mem m.saveStorage n1 s1 hm1)
          (n2, s2) (mapGet_mem m.saveStorage n2 s2 hm2) hne
        dsimp only at hd ⊢
        exact hd

theorem C4_witness :
    (XBLManager.getSaveContainer
        ⟨XBLStatus.Disconnected, none, [], XBLAchievementsStatus.Uninitialized,
          [], false, false, 0⟩ "x").1
      = XBLSaveData.create XBLStatus.Disconnected none 0 "x" ∧
    XBLManager.getSaveContainer
        ⟨XBLStatus.Disconnected, none, [("x", ⟨0, "x", false, none⟩)],
          XBLAchievementsStatus.Uninitialized, [], false, false, 1⟩ "x"
      = (⟨0, "x", false, none⟩,
         ⟨XBLStatus.Disconnected, none, [("x", ⟨0, "x", false, none⟩)],
          XBLAchievementsStatus.Uninitialized, [], false, false, 1⟩) ∧
    (XBLManager.getSaveContainer
        ⟨XBLStatus.Disconnected, none, [], XBLAchievementsStatus.Uninitialized,
          [], false, false, 0⟩ "x").1.objId ≠
      (XBLManager.getSaveContainer
        (XBLManager.getSaveContainer
          ⟨XBLStatus.Disconnected, none, [], XBLAchievementsStatus.Uninitialized,
            [], false, false, 0⟩ "x").2 "y").1.objId := by
  refine ⟨?_, ?_, ?_⟩
  · exact ((C4_registry_memoizes_by_name
      ⟨XBLStatus.Disconnected, none, [], XBLAchievementsStatus.Uninitialized,
        [], false, false, 0⟩ "x" "x" "y" ⟨by decide, by decide⟩).1 (by decide)).1
  · exact (C4_registry_memoizes_by_name
      ⟨XBLStatus.Disconnected, none, [("x", ⟨0, "x", false, none⟩)],
        XBLAchievementsStatus.Uninitialized, [], false, false, 1⟩
      "x" "x" "y" ⟨by decide, by decide⟩).2.1 ⟨0, "x", false, none⟩ (by decide)
  · exact (C4_registry_memoizes_by_name
      ⟨XBLStatus.Disconnected, none, [], XBLAchievementsStatus.Uninitialized,
        [], false, false, 0⟩ "x" "x" "y" ⟨by decide, by decide⟩).2.2.2 (by decide)

theorem recordAchievements_append (c a b : List (String × Bool)) :
    recordAchievements c (a ++ b)
      = recordAchievements (recordAchievements c a) b := by
  induction a generalizing c with
  | nil => rfl
  | cons hd tl ih =>
    obtain ⟨id, v⟩ := hd
    show recordAchievements (mapSet c id v) (tl ++ b) = _
    rw [ih]
    rfl

theorem isSome_mapGet_recordAchievements (items : List (String × Bool))
    (id : String) :
    ∀ c : List (String × Bool), (mapGet c id).isSome = true →
      (mapGet (recordAchievements c items) id).isSome = true := by
  induction items with
  | nil =>
    intro c h
    exact h
  | cons hd tl ih =>
    intro c h
    obtain ⟨i, v⟩ := hd
    show (mapGet (recordAchievements (mapSet c i v) tl) id).isSome = true
    apply ih
    rw [mapGet_mapSet]
    by_cases hc : id = i
    · rw [if_pos hc]
      rfl
    · rw [if_neg hc]
      exact h

theorem mem_isSome_recordAchievements (items : List (String × Bool))
    (id : String) (b : Bool) :
    ∀ c : List (String × Bool), (id, b) ∈ items →
      (mapGet (recordAchievements c items) id).isSome = true := by
  induction items with
  | nil =>
    intro c h
    cases h
  | cons hd tl ih =>
    intro c h
    obtain ⟨i, v⟩ := hd
    show (mapGet (recordAchievements (mapSet c i v) tl) id).isSome = true
    rcases List.mem_cons.mp h with h1 | h1
    · obtain ⟨rfl, rfl⟩ : id = i ∧ b = v := Prod.mk.inj h1
      apply isSome_mapGet_recordAchievements
      rw [mapGet_mapSet, if_pos rfl]
      rfl
    · exact ih (mapSet c i v) h1

theorem retrieveLoop_spec (rest : List PageOutcome) :
    ∀ (first : PageOutcome) (m : XBLManagerState),
      retrieveLoop m first rest = retrieveOutcome first rest m := by
  induction rest with
  | nil =>
    intro first m
    cases first with
    | err => rfl
    | exn => rfl
    | ok items hasNext =>
      cases hasNext with
      | false =>
        simp [retrieveLoop, retrieveOutcome, allPagesOk, consumedItems]
      | true =>
        simp [retrieveLoop, retrieveOutcome, allPagesOk, consumedItems]
  | cons next more ih =>
    intro first m
    cases first with
    | err => rfl
    | exn => rfl
    | ok items hasNext =>
      cases hasNext with
      | false =>
        simp [retrieveLoop, retrieveOutcome, allPagesOk, consumedItems]
      | true =>
        show retrieveLoop { m with achievementStatus := recordAchievements m.achievementStatus items } next more = _
        rw [ih]
        simp [retrieveOutcome, allPagesOk, consumedItems,
          recordAchievements_append]

/-- Claim C7: the achievement cache is populated by a paginated fetch.
retrieveUserAchievementsState first sets the status flag to Retrieving and
clears the cache (the result equals the pagination loop run from that
cleared, Retrieving state); the final status is Ready exactly when every
page of the stream was consumed without error, and Uninitialized exactly
otherwise (any error result or exception); the final cache is the items of
all consumed pages recorded in order over the empty cache, so it contains
an unlocked/locked boolean for every achievement of every consumed
page. -/
theorem C7_retrieve_populates_cache_paginated (m : XBLManagerState)
    (firstResult : PageOutcome) (nextResults : List PageOutcome) :
    XBLManager.retrieveUserAchievementsState firstResult nextResults m
      = retrieveOutcome firstResult nextResults { m with achievementsStatus := XBLAchievementsStatus.Retrieving, achievementStatus := [] } ∧
    ((XBLManager.retrieveUserAchievementsState firstResult nextResults
        m).achievementsStatus = XBLAchievementsStatus.Ready
      ↔ allPagesOk firstResult nextResults = true) ∧
    ((XBLManager.retrieveUserAchievementsState firstResult nextResults
        m).achievementsStatus = XBLAchievementsStatus.Uninitialized
      ↔ allPagesOk firstResult nextResults = false) ∧
    ((XBLManager.retrieveUserAchievementsState firstResult nextResults
        m).achievementStatus
      = recordAchievements [] (consumedItems firstResult nextResults)) ∧
    (∀ id b, (id, b) ∈ consumedItems firstResult nextResults →
      (mapGet (XBLManager.retrieveUserAchievementsState firstResult
          nextResults m).achievementStatus id).isSome = true) := by
  have hloop : XBLManager.retrieveUserAchievementsState firstResult
      nextResults m
      = retrieveOutcome firstResult nextResults { m with achievementsStatus := XBLAchievementsStatus.Retrieving, achievementStatus := [] } := by
    unfold XBLManager.retrieveUserAchievementsState
    exact retrieveLoop_spec nextResults firstResult _
  refine ⟨hloop, ?_, ?_, ?_, ?_⟩
  · rw [hloop]
    unfold retrieveOutcome
    by_cases h : allPagesOk firstResult nextResults <;> simp [h]
  · rw [hloop]
    unfold retrieveOutcome
    by_cases h : allPagesOk firstResult nextResults <;> simp [h]
  · rw [hloop]
    rfl
  · intro id b hmem
    rw [hloop]
    show (mapGet (recordAchievements []
      (consumedItems firstResult nextResults)) id).isSome = true
    exact mem_isSome_recordAchievements _ id b [] hmem

theorem C7_witness :
    XBLManager.retrieveUserAchievementsState
        (PageOutcome.ok [("a", true)] true)
        [PageOutcome.ok [("b", false)] false]
        ⟨XBLStatus.Connected, some 1, [], XBLAchievementsStatus.Uninitialized,
          [("z", true)], true, true, 0⟩
      = ⟨XBLStatus.Connected, some 1, [], XBLAchievementsStatus.Ready,
          [("a", true), ("b", false)], true, true, 0⟩ ∧
    ((XBLManager.retrieveUserAchievementsState (PageOutcome.ok [] true)
        [PageOutcome.err]
        ⟨XBLStatus.Connected, some 1, [], XBLAchievementsStatus.Uninitialized,
          [], true, true, 0⟩).achievementsStatus
      = XBLAchievementsStatus.Uninitialized) ∧
    (mapGet (XBLManager.retrieveUserAchievementsState
        (PageOutcome.ok [("a", true)] true)
        [PageOutcome.ok [("b", false)] false]
        ⟨XBLStatus.Connected, some 1, [], XBLAchievementsStatus.Uninitialized,
          [], true, true, 0⟩).achievementStatus "b").isSome = true := by
  refine ⟨?_, ?_, ?_⟩
  · rw [(C7_retrieve_populates_cache_paginated
      ⟨XBLStatus.Connected, some 1, [], XBLAchievementsStatus.Uninitialized,
        [("z", true)], true, true, 0⟩
      (PageOutcome.ok [("a", true)] true)
      [PageOutcome.ok [("b", false)] false]).1]
    decide
  · rw [(C7_retrieve_populates_cache_paginated
      ⟨XBLStatus.Connected, some 1, [], XBLAchievementsStatus.Uninitialized,
        [], true, true, 0⟩
      (PageOutcome.ok [] true) [PageOutcome.err]).2.2.1]
    decide
  · exact (C7_retrieve_populates_cache_paginated
      ⟨XBLStatus.Connected, some 1, [], XBLAchievementsStatus.Uninitialized,
        [], true, true, 0⟩
      (PageOutcome.ok [("a", true)] true)
      [PageOutcome.ok [("b", false)] false]).2.2.2.2 "b" false (by decide)
